import Mathlib

/-!
Verification of the RepCue video batch-render pipeline
(`docs/implementation-plans/video/blender_batch_render.py`,
`render_catalog_scenes.py`, `repcue_render_addon.py`).

The Python scripts are embedded shallowly: Python floats are modelled by
exact rationals (ℚ), Python ints by ℤ, per-id external effects (file
existence, the Blender import operators) by an explicit environment
record, and the uncaught-exception control flow of the per-id loop by
`Except`.  Every definition is translated from the source file and line
cited in its doc comment.
-/

namespace RepCue

/-- Python truncating conversion `int(x)` on a real value: toward zero. -/
def pyInt (x : ℚ) : ℤ :=
  if 0 ≤ x then ⌊x⌋ else ⌈x⌉

/-- One keyframe point of an f-curve: its time (`co.x`), value (`co.y`) and
the times of its left and right Bézier handles
(`kp.co`, `kp.handle_left`, `kp.handle_right` in the scripts). -/
structure Keyframe where
  time : ℚ
  value : ℚ
  handleLeftTime : ℚ
  handleRightTime : ℚ
deriving Repr, DecidableEq

/-- The frame range `(fstart, fend)` read from an action
(`act.frame_range`, blender_batch_render.py line 182). -/
structure SourceRange where
  firstFrame : ℚ
  lastFrame : ℚ
deriving Repr, DecidableEq

/-- The scene frame range `(scene.frame_start, scene.frame_end)` the curve
is retimed onto (blender_batch_render.py lines 175-176). -/
structure TargetRange where
  startFrame : ℤ
  endFrame : ℤ
deriving Repr, DecidableEq

/-- An action: its reported frame range and its f-curves, each an ordered
list of keyframe points. -/
structure Action where
  frameRange : SourceRange
  fcurves : List (List Keyframe)
deriving Repr, DecidableEq

/-- An imported armature object; `action` is what `find_action` recovers
from its animation data or NLA tracks (blender_batch_render.py
lines 123-130), `none` when it carries no animation. -/
structure Rig where
  action : Option Action
deriving Repr, DecidableEq

/-- Denominator of the retime scale, blender_batch_render.py line 183:
`orig = (fend - fstart) if fend > fstart else 1.0`. -/
def origLength (s : SourceRange) : ℚ :=
  if s.firstFrame < s.lastFrame then s.lastFrame - s.firstFrame else 1

/-- Retime scale, blender_batch_render.py line 184:
`scale = (scene.frame_end - scene.frame_start + 1) / orig`. -/
def retimeScale (s : SourceRange) (t : TargetRange) : ℚ :=
  (((t.endFrame : ℚ) - (t.startFrame : ℚ)) + 1) / origLength s

/-- The affine time remap applied to one coordinate,
blender_batch_render.py lines 187-189:
`(x - fstart) * scale + scene.frame_start`. -/
def retimeTime (s : SourceRange) (t : TargetRange) (x : ℚ) : ℚ :=
  (x - s.firstFrame) * retimeScale s t + (t.startFrame : ℚ)

/-- Retiming one keyframe point: the remap is applied to its time and to
both handle times, the value is untouched (lines 187-189). -/
def retimeKeyframe (s : SourceRange) (t : TargetRange) (k : Keyframe) : Keyframe :=
  { k with
    time := retimeTime s t k.time
    handleLeftTime := retimeTime s t k.handleLeftTime
    handleRightTime := retimeTime s t k.handleRightTime }

/-- Retiming one f-curve: the remap is applied to every keyframe point
(inner loop of lines 185-189). -/
def retime (s : SourceRange) (t : TargetRange) (c : List Keyframe) : List Keyframe :=
  c.map (retimeKeyframe s t)

/-- Retiming a whole action: every f-curve of the action is retimed with
the one global map (outer loop of lines 185-189). -/
def retimeAction (t : TargetRange) (a : Action) : List (List Keyframe) :=
  a.fcurves.map (retime a.frameRange t)

/-- The keyframe times of a curve are monotonically non-decreasing in
source order. -/
def timesMonotone (c : List Keyframe) : Prop :=
  List.Chain' (fun a b => a.time ≤ b.time) c

instance (c : List Keyframe) : Decidable (timesMonotone c) := by
  unfold timesMonotone; infer_instance

/-- CLI arguments of blender_batch_render.py (lines 19-26) that the per-id
loop reads: `--src`, `--out`, `--fps`, `--seconds`, `--static_seconds`. -/
structure BatchArgs where
  src : String
  out : String
  fps : ℤ
  seconds : ℚ
  staticSeconds : ℚ
deriving Repr

/-- The external world one catalog id sees: which candidate asset files
exist on disk (`os.path.exists`, line 161), and what the Blender import
operators produce for the resolved file — an error when the operator
itself fails, otherwise the armature selected on line 120-121
(`none` when no armature was imported). -/
structure IdEnv where
  hasExt : String → Bool
  importOutcome : Except String (Option Rig)

/-- The fixed ordered extension list tried by the per-id loop
(blender_batch_render.py line 159). -/
def supportedExts : List String :=
  [".fbx", ".glb", ".gltf", ".blend"]

/-- Asset resolution, blender_batch_render.py lines 157-162: the first
extension in `supportedExts` whose candidate file exists, `none` when no
candidate exists. -/
def resolve (env : IdEnv) : Option String :=
  supportedExts.find? env.hasExt

/-- Embeds `import_asset` (blender_batch_render.py lines 105-121): a
supported extension dispatches to the external Blender operator (the
environment's `importOutcome`); any other extension raises
`RuntimeError("Unsupported file: ...")`, modelled as `Except.error`. -/
def importAsset (path ext : String) (env : IdEnv) : Except String (Option Rig) :=
  if ext = ".fbx" ∨ ext = ".glb" ∨ ext = ".gltf" ∨ ext = ".blend" then
    env.importOutcome
  else
    Except.error ("Unsupported file: " ++ path)

/-- Embeds `find_action` (blender_batch_render.py lines 123-130): `None`
for a missing rig, otherwise the action recovered from the rig's
animation data or NLA tracks. -/
def find_action : Option Rig → Option Action
  | none => none
  | some r => r.action

/-- The static-id set of blender_batch_render.py lines 171-172. -/
def STATIC_IDS : List String :=
  ["plank", "side-plank", "wall-sit", "downward-dog", "child-pose",
   "single-leg-stand", "tree-pose", "warrior-3", "forward-fold", "finger-roll"]

/-- One synthesized animation channel: the data path and array index of
the f-curve created on line 199 and its (frame, value) keyframe points. -/
structure IdleChannel where
  dataPath : String
  arrayIndex : ℤ
  keys : List (ℚ × ℚ)
deriving Repr, DecidableEq

/-- The static-idle fallback channel, blender_batch_render.py
lines 199-203: one f-curve on `rotation_euler` index 2 with two keyframe
points, `(scene.frame_start, 0.0)` and `(scene.frame_end, 0.05)`. -/
def synthIdle (frameStart frameEnd : ℤ) : IdleChannel :=
  { dataPath := "rotation_euler"
    arrayIndex := 2
    keys := [((frameStart : ℚ), 0), ((frameEnd : ℚ), 5 / 100)] }

/-- One render job: the aspect name, output resolution and output file
path the render loop configures before `bpy.ops.render.render`. -/
structure RenderJob where
  exerciseId : String
  aspect : String
  width : ℤ
  height : ℤ
  outputPath : String
deriving Repr, DecidableEq

/-- Resolution per aspect name (blender_batch_render.py lines 71-79 via
`position_camera`, identical in the other two scripts). -/
def aspectRes (a : String) : ℤ × ℤ :=
  if a = "square" then (1080, 1080)
  else if a = "portrait" then (1080, 1920)
  else (1920, 1080)

/-- The error produced by the first statement of the batch script's
aspect render loop: line 207 of blender_batch_render.py is a malformed
conditional expression (an `if` whose `else` is missing) that also
references the undefined name `FLOOD_IDS`.  Python refuses to parse it,
so the module itself never loads; under the most charitable
statement-by-statement reading, every arrival at the render loop raises
here, before any resolution is configured, any output path is set or any
render runs. -/
def renderLoopError : String :=
  "line 207: SyntaxError in conditional referencing undefined FLOOD_IDS"

/-- The aspect render loop of blender_batch_render.py lines 205-214.
Its body's first statement is the broken line 207, so the loop raises
`renderLoopError` on its first iteration and can never emit a render
job: the per-aspect resolutions and paths of lines 208-213 are
unreachable in this script (the working form of the same loop is
`expandScene` below, from render_catalog_scenes.py). -/
def batchAspectLoop (_exId _outRoot : String) : Except String (List RenderJob) :=
  Except.error renderLoopError

/-- What the per-id body produced as its final animation: the retimed
f-curves (line 185-189 branch), the synthesized idle channels
(lines 191-203 branch with a rig), or nothing (no action and no rig). -/
inductive AnimResult where
  | retimedAnim (fcurves : List (List Keyframe))
  | idleSynth (channels : List IdleChannel)
  | noAnim
deriving Repr, DecidableEq

/-- Outcome of one iteration of the per-id main loop of
blender_batch_render.py (lines 136-214) under a statement-by-statement
reading.  No iteration can complete normally: a missing asset prints a
warning and continues (lines 163-165); an error raised by the import
operator escapes (the loop has no handler); and every id whose asset
does import reaches the aspect render loop, whose first statement (line
207) raises after the frame range (lines 175-176) and the animation branch
(lines 178-203) have already executed but before any render job is
configured or run. -/
inductive IdOutcome where
  | skippedMissing
  | importRaised (err : String)
  | renderLoopRaised (frameStart frameEnd : ℤ) (anim : AnimResult) (err : String)
deriving Repr, DecidableEq

/-- The duration choice and frame-end computation of
blender_batch_render.py lines 171-176: `seconds = static_seconds` when
the id is in the static set, else `seconds`; then
`scene.frame_end = int(seconds * fps)` (note: no clamp to 2 here). -/
def idFrameEnd (args : BatchArgs) (exId : String) : ℤ :=
  pyInt ((if exId ∈ STATIC_IDS then args.staticSeconds else args.seconds) * (args.fps : ℚ))

/-- The animation branch of blender_batch_render.py lines 178-203: an
action found on the rig is retimed onto the scene range; otherwise, when
a rig is present, the single idle channel is synthesized; with no rig no
animation is created at all. -/
def animOutcome (t : TargetRange) (rig : Option Rig) : AnimResult :=
  match find_action rig with
  | some act => AnimResult.retimedAnim (retimeAction t act)
  | none =>
    match rig with
    | some _ => AnimResult.idleSynth [synthIdle t.startFrame t.endFrame]
    | none => AnimResult.noAnim

/-- One iteration of the per-id main loop of blender_batch_render.py
(lines 136-214): resolve the asset (missing → warn and continue); import
it (an import error propagates — the loop has no handler); set the frame
range (lines 175-176: `frame_start = 1`, `frame_end = idFrameEnd`); run
the animation branch; then enter the aspect render loop, whose first
statement raises `renderLoopError` (see `batchAspectLoop`), so the
iteration never completes and never renders. -/
def processId (args : BatchArgs) (exId : String) (env : IdEnv) : IdOutcome :=
  match resolve env with
  | none => IdOutcome.skippedMissing
  | some ext =>
    match importAsset (args.src ++ "/" ++ exId ++ ext) ext env with
    | Except.error e => IdOutcome.importRaised e
    | Except.ok rig =>
      IdOutcome.renderLoopRaised 1 (idFrameEnd args exId)
        (animOutcome ⟨1, idFrameEnd args exId⟩ rig) renderLoopError

/-- Observable state accumulated across the batch loop: the ids for
which the missing-asset warning was printed, in catalog order.  Nothing
else accumulates — the script keeps no BatchResult, and no id ever
completes its iteration. -/
structure RunState where
  warnedMissing : List String
deriving Repr, DecidableEq

/-- The initial, empty accumulated state of a batch run. -/
def RunState.init : RunState :=
  { warnedMissing := [] }

/-- The batch loop `for ex_id in args.ids` of blender_batch_render.py
(lines 136-214): ids are visited in order; a missing asset records a
warning and continues; an error raised while processing an id — by
the import operator or by line 207 of the render loop — is not caught
anywhere in the script, so it aborts the remaining run. -/
def runBatch (args : BatchArgs) (envOf : String → IdEnv) :
    List String → RunState → Except String RunState
  | [], st => Except.ok st
  | exId :: rest, st =>
    match processId args exId (envOf exId) with
    | IdOutcome.skippedMissing =>
      runBatch args envOf rest
        { warnedMissing := st.warnedMissing ++ [exId] }
    | IdOutcome.importRaised e => Except.error e
    | IdOutcome.renderLoopRaised _ _ _ e => Except.error e

/-- The per-scene frame range of render_catalog_scenes.py lines 49-55:
`frame_start = 1`, `frame_end = max(2, int(fps * seconds))`, with the
seconds value picked by membership of the scene name in `--static_ids`. -/
def catalogFrameEnd (fps : ℤ) (staticIds : List String) (name : String)
    (seconds staticSeconds : ℚ) : ℤ :=
  let secs := if name ∈ staticIds then staticSeconds else seconds
  max 2 (pyInt ((fps : ℚ) * secs))

/-- The aspect loop of render_catalog_scenes.py lines 58-66: `base =
out/<id>/<id>_v1_` and one render per aspect at `base + <W>x<H> + .mp4`,
in the same fixed order as the batch script. -/
def expandScene (exId outRoot : String) : List RenderJob :=
  [("square", "1080x1080"), ("portrait", "1080x1920"), ("landscape", "1920x1080")].map
    fun p =>
      { exerciseId := exId
        aspect := p.1
        width := (aspectRes p.1).1
        height := (aspectRes p.1).2
        outputPath := outRoot ++ "/" ++ exId ++ "/" ++ exId ++ "_v1_" ++ p.2 ++ ".mp4" }

/-- The fps fallback of repcue_render_addon.py line 78,
`fps = scn.render.fps or 30`: Python `or` substitutes 30 exactly when the
scene's fps is the falsy integer 0. -/
def addonUsedFps (sceneFps : ℤ) : ℤ :=
  if sceneFps = 0 then 30 else sceneFps

/-- The frame-range computation of the add-on operator
(repcue_render_addon.py lines 78-81): seconds picked by the static flag,
`frame_end = max(2, int(seconds * fps))` with the fps fallback. -/
def addonFrameEnd (sceneFps : ℤ) (isStatic : Bool) (seconds staticSeconds : ℚ) : ℤ :=
  let secs := if isStatic then staticSeconds else seconds
  max 2 (pyInt (secs * (addonUsedFps sceneFps : ℚ)))

/-- Environment of the three-id batch example: the second id, `lunges`,
has no asset file on disk; every import that does happen succeeds and
yields no armature. -/
def envOf3 : String → IdEnv := fun i =>
  if i = "lunges" then ⟨fun _ => false, Except.ok none⟩
  else ⟨fun e => e == ".fbx", Except.ok none⟩

/-- A supported extension that was actually resolved dispatches straight
to the external import operator: the `Unsupported file` branch of
`import_asset` is unreachable through the resolver's own extension
list. -/
theorem importAsset_of_resolved (env : IdEnv) (path ext : String)
    (hres : resolve env = some ext) : importAsset path ext env = env.importOutcome := by
  have hmem : ext ∈ supportedExts := List.mem_of_find?_eq_some hres
  have hdisj : ext = ".fbx" ∨ ext = ".glb" ∨ ext = ".gltf" ∨ ext = ".blend" := by
    simpa [supportedExts] using hmem
  simp [importAsset, hdisj]

/-- C1 (counterexample): the claim that retiming with source range
`(10, 70)` and target `(1, 66)` maps a keyframe at time 70 to exactly 66
is false on the code: the code's map sends time 70 to
`(70 - 10) * (66 / 60) + 1 = 67`. -/
theorem c1_counterexample :
    retime ⟨10, 70⟩ ⟨1, 66⟩ [⟨70, 0, 70, 70⟩] = [⟨67, 0, 67, 67⟩] ∧
    (67 : ℚ) ≠ 66 := by
  constructor
  · simp [retime, retimeKeyframe, retimeTime, retimeScale, origLength]
    norm_num
  · norm_num

/-- C1 (amended): for every animation curve retimed with source range
`(10, 70)` and target `(1, 66)`, every keyframe's time and both handle
times are mapped by `time' = (time - 10) * scale + 1` with
`scale = targetLength / max(sourceLength, 1) = 66 / 60`; a keyframe at
time 10 maps exactly to 1, one at time 40 exactly to 34, and one at
time 70 exactly to 67 (one frame past the target end, not 66). -/
theorem c1_retime_map (c : List Keyframe) (k : Keyframe) (hk : k ∈ c) :
    retimeKeyframe ⟨10, 70⟩ ⟨1, 66⟩ k ∈ retime ⟨10, 70⟩ ⟨1, 66⟩ c ∧
    (retimeKeyframe ⟨10, 70⟩ ⟨1, 66⟩ k).time =
      (k.time - 10) * (((66 : ℚ) - 1 + 1) / max ((70 : ℚ) - 10) 1) + 1 ∧
    (retimeKeyframe ⟨10, 70⟩ ⟨1, 66⟩ k).handleLeftTime =
      (k.handleLeftTime - 10) * (((66 : ℚ) - 1 + 1) / max ((70 : ℚ) - 10) 1) + 1 ∧
    (retimeKeyframe ⟨10, 70⟩ ⟨1, 66⟩ k).handleRightTime =
      (k.handleRightTime - 10) * (((66 : ℚ) - 1 + 1) / max ((70 : ℚ) - 10) 1) + 1 ∧
    (k.time = 10 → (retimeKeyframe ⟨10, 70⟩ ⟨1, 66⟩ k).time = 1) ∧
    (k.time = 40 → (retimeKeyframe ⟨10, 70⟩ ⟨1, 66⟩ k).time = 34) ∧
    (k.time = 70 → (retimeKeyframe ⟨10, 70⟩ ⟨1, 66⟩ k).time = 67) := by
  have hmax : max ((70 : ℚ) - 10) 1 = 60 := by
    rw [max_eq_left (by norm_num : (1 : ℚ) ≤ 70 - 10)]; norm_num
  have hsc : retimeScale ⟨10, 70⟩ ⟨1, 66⟩ = 11 / 10 := by
    simp [retimeScale, origLength]
    norm_num
  refine ⟨List.mem_map_of_mem _ hk, ?_, ?_, ?_, ?_, ?_, ?_⟩
  · simp [retimeKeyframe, retimeTime, hsc]
    left
    rw [hmax]
    norm_num
  · simp [retimeKeyframe, retimeTime, hsc]
    left
    rw [hmax]
    norm_num
  · simp [retimeKeyframe, retimeTime, hsc]
    left
    rw [hmax]
    norm_num
  · intro h
    simp [retimeKeyframe, retimeTime, hsc, h]
  · intro h
    simp [retimeKeyframe, retimeTime, hsc, h]
    norm_num
  · intro h
    simp [retimeKeyframe, retimeTime, hsc, h]
    norm_num

/-- Witness for C1's amended theorem at the singleton curve with a
keyframe at time 40. -/
theorem c1_retime_map_witness :
    retimeKeyframe ⟨10, 70⟩ ⟨1, 66⟩ ⟨40, 5, 10, 70⟩ ∈
      retime ⟨10, 70⟩ ⟨1, 66⟩ [⟨40, 5, 10, 70⟩] ∧
    (retimeKeyframe ⟨10, 70⟩ ⟨1, 66⟩ ⟨40, 5, 10, 70⟩).time = 34 := by
  have h := c1_retime_map [⟨40, 5, 10, 70⟩] ⟨40, 5, 10, 70⟩ (by simp)
  exact ⟨h.1, h.2.2.2.2.2.1 rfl⟩

/-- C2 (counterexample): the claim that every per-id failure is caught at
the orchestrator boundary and that no exception escapes a full batch run
is false on the code: the per-id loop has no exception handler, so an
error raised by the import operator for the very first id escapes and
aborts the whole run instead of being recorded as a skip. -/
theorem c2_counterexample :
    runBatch ⟨"s", "o", 30, 2, 10⟩
      (fun _ => ⟨fun e => e == ".fbx", Except.error "import failed"⟩)
      ["squats"] RunState.init = Except.error "import failed" := by
  simp [runBatch, processId, resolve, supportedExts, importAsset]

/-- A batch run over ids that all fail to resolve completes normally,
printing one missing-asset warning per id, in order. -/
theorem runBatch_all_missing (args : BatchArgs) (envOf : String → IdEnv)
    (ids : List String) (st : RunState)
    (h : ∀ j ∈ ids, resolve (envOf j) = none) :
    runBatch args envOf ids st =
      Except.ok { warnedMissing := st.warnedMissing ++ ids } := by
  induction ids generalizing st with
  | nil => simp [runBatch]
  | cons j rest ih =>
    have hj : resolve (envOf j) = none := h j (List.mem_cons_self j rest)
    have hrest : ∀ k ∈ rest, resolve (envOf k) = none :=
      fun k hk => h k (List.mem_cons_of_mem _ hk)
    have hstep : processId args j (envOf j) = IdOutcome.skippedMissing := by
      simp [processId, hj]
    rw [runBatch, hstep, ih { warnedMissing := st.warnedMissing ++ [j] } hrest]
    simp

/-- The first id in catalog order whose asset resolves aborts the whole
batch run with an uncaught error: either the import operator's error
escapes, or the iteration raises at line 207 of the render loop. -/
theorem runBatch_aborts_at_resolved (args : BatchArgs) (envOf : String → IdEnv)
    (pre post : List String) (i : String) (st : RunState)
    (hpre : ∀ j ∈ pre, resolve (envOf j) = none)
    (hi : (resolve (envOf i)).isSome) :
    ∃ e, runBatch args envOf (pre ++ i :: post) st = Except.error e := by
  induction pre generalizing st with
  | nil =>
    obtain ⟨ext, hext⟩ := Option.isSome_iff_exists.mp hi
    have hia := importAsset_of_resolved (envOf i) (args.src ++ "/" ++ i ++ ext) ext hext
    cases him : (envOf i).importOutcome with
    | error e =>
      refine ⟨e, ?_⟩
      have hstep : processId args i (envOf i) = IdOutcome.importRaised e := by
        simp [processId, hext, hia, him]
      rw [List.nil_append, runBatch, hstep]
    | ok r =>
      refine ⟨renderLoopError, ?_⟩
      have hstep : processId args i (envOf i) =
          IdOutcome.renderLoopRaised 1 (idFrameEnd args i)
            (animOutcome ⟨1, idFrameEnd args i⟩ r) renderLoopError := by
        simp [processId, hext, hia, him]
      rw [List.nil_append, runBatch, hstep]
  | cons p pre' ih =>
    have hp : resolve (envOf p) = none := hpre p (List.mem_cons_self p pre')
    have hpre' : ∀ j ∈ pre', resolve (envOf j) = none :=
      fun j hj => hpre j (List.mem_cons_of_mem _ hj)
    have hstep : processId args p (envOf p) = IdOutcome.skippedMissing := by
      simp [processId, hp]
    obtain ⟨e, he⟩ := ih { warnedMissing := st.warnedMissing ++ [p] } hpre'
    refine ⟨e, ?_⟩
    rw [List.cons_append, runBatch, hstep]
    exact he

/-- C2 (amended): a missing asset at resolve time is logged as a warning
and the loop always continues with the next catalog id, so a catalog
whose ids all fail to resolve runs to completion with one warning per
id; but per-id failures are not caught at the orchestrator boundary: the
first id whose asset does resolve aborts the entire batch with an
uncaught error — the import operator's error escapes, or, if import
succeeds, line 207 of the render loop raises — so no id is ever fully
processed and no BatchResult beyond the printed warnings exists. -/
theorem c2_orchestrator (args : BatchArgs) (envOf : String → IdEnv)
    (ids pre post : List String) (i : String) (st : RunState)
    (hmiss : ∀ j ∈ ids, resolve (envOf j) = none)
    (hpre : ∀ j ∈ pre, resolve (envOf j) = none)
    (hi : (resolve (envOf i)).isSome) :
    runBatch args envOf ids st =
      Except.ok { warnedMissing := st.warnedMissing ++ ids } ∧
    ∃ e, runBatch args envOf (pre ++ i :: post) st = Except.error e :=
  ⟨runBatch_all_missing args envOf ids st hmiss,
   runBatch_aborts_at_resolved args envOf pre post i st hpre hi⟩

/-- Witness for C2's amended theorem: a catalog containing only the
asset-less id is warned and completes, while a catalog whose first id
resolves aborts with an error before reaching the rest. -/
theorem c2_orchestrator_witness :
    runBatch ⟨"s", "o", 30, 2, 10⟩ envOf3 ["lunges"] RunState.init =
      Except.ok { warnedMissing := RunState.init.warnedMissing ++ ["lunges"] } ∧
    ∃ e, runBatch ⟨"s", "o", 30, 2, 10⟩ envOf3 ([] ++ "squats" :: ["plank"]) RunState.init =
      Except.error e :=
  c2_orchestrator ⟨"s", "o", 30, 2, 10⟩ envOf3 ["lunges"] [] ["plank"] "squats"
    RunState.init
    (by
      intro j hj
      rw [List.mem_singleton] at hj
      subst hj
      simp [envOf3, resolve, supportedExts])
    (by intro j hj; simp at hj)
    (by simp [envOf3, resolve, supportedExts])

/-- C3 (counterexample): the claim that every pipeline variant computes
`endFrame = max(2, int(fps * seconds))` is false on the code: line 176
of the batch script assigns `frame_end = int(seconds * fps)` with no
floor of 2 (the assignment executes before the render loop's line-207
failure), so with `fps = 1` and `seconds = 1` it computes 1 where the
claimed formula gives 2. -/
theorem c3_counterexample :
    idFrameEnd ⟨"s", "o", 1, 1, 10⟩ "squats" = 1 ∧
    (1 : ℤ) ≠ max 2 (pyInt ((1 : ℚ) * 1)) := by
  constructor
  · simp [idFrameEnd, STATIC_IDS, pyInt]
  · norm_num [pyInt]

/-- C3 (amended): `startFrame = 1` everywhere; the catalog renderer and
the add-on clamp `endFrame` to at least 2, while the batch script
computes the unclamped `int(seconds * fps)` and therefore agrees with
the claimed `max(2, ...)` formula exactly when that value is at least 2;
with fps = 30, repSeconds = 2.2 gives endFrame 66 and staticSeconds = 10
gives 300 in all three variants. -/
theorem c3_frame_range (args : BatchArgs) (exId : String) (fps : ℤ)
    (staticIds : List String) (name : String) (sec secStatic : ℚ) (isStatic : Bool)
    (h2 : 2 ≤ idFrameEnd args exId) :
    idFrameEnd args exId =
      max 2 (pyInt ((if exId ∈ STATIC_IDS then args.staticSeconds else args.seconds) *
        (args.fps : ℚ))) ∧
    2 ≤ catalogFrameEnd fps staticIds name sec secStatic ∧
    2 ≤ addonFrameEnd fps isStatic sec secStatic ∧
    idFrameEnd ⟨"s", "o", 30, 11 / 5, 10⟩ "squats" = 66 ∧
    idFrameEnd ⟨"s", "o", 30, 11 / 5, 10⟩ "plank" = 300 ∧
    catalogFrameEnd 30 ["plank"] "squats" (11 / 5) 10 = 66 ∧
    catalogFrameEnd 30 ["plank"] "plank" (11 / 5) 10 = 300 ∧
    addonFrameEnd 30 false (11 / 5) 10 = 66 ∧
    addonFrameEnd 30 true (11 / 5) 10 = 300 := by
  refine ⟨?_, le_max_left _ _, le_max_left _ _, ?_, ?_, ?_, ?_, ?_, ?_⟩
  · rw [idFrameEnd] at h2 ⊢
    exact (max_eq_right h2).symm
  · simp [idFrameEnd, STATIC_IDS, pyInt]
    norm_num
  · simp [idFrameEnd, STATIC_IDS, pyInt]
    norm_num
  · simp [catalogFrameEnd, pyInt]
    norm_num
  · simp [catalogFrameEnd, pyInt]
    norm_num
  · simp [addonFrameEnd, addonUsedFps, pyInt]
    norm_num
  · simp [addonFrameEnd, addonUsedFps, pyInt]
    norm_num

/-- Witness for C3's amended theorem at the cyclic-rep configuration
fps = 30, repSeconds = 2.2. -/
theorem c3_frame_range_witness :
    idFrameEnd ⟨"s", "o", 30, 11 / 5, 10⟩ "squats" =
      max 2 (pyInt ((if "squats" ∈ STATIC_IDS then (10 : ℚ) else 11 / 5) *
        ((30 : ℤ) : ℚ))) :=
  (c3_frame_range ⟨"s", "o", 30, 11 / 5, 10⟩ "squats" 30 ["plank"] "squats"
    (11 / 5) 10 false (by simp [idFrameEnd, STATIC_IDS, pyInt]; norm_num)).1

/-- C4 (counterexample): the claim that the static idle synthesizer is
invoked only for a StaticHold id is false on the code: `squats` is not
in the static-id set, yet importing it with an armature that carries no
action runs the idle-synthesis branch — the per-id trace synthesizes the
channel and then raises at line 207 of the render loop, never completing
the id. -/
theorem c4_counterexample :
    processId ⟨"s", "o", 30, 2, 10⟩ "squats"
      ⟨fun e => e == ".fbx", Except.ok (some ⟨none⟩)⟩ =
      IdOutcome.renderLoopRaised 1 60 (AnimResult.idleSynth [synthIdle 1 60])
        renderLoopError ∧
    "squats" ∉ STATIC_IDS := by
  constructor
  · simp [processId, resolve, supportedExts, importAsset, idFrameEnd, STATIC_IDS,
          animOutcome, find_action, pyInt]
    norm_num
  · decide

/-- C4 (amended): the idle synthesizer runs exactly when import yielded
an armature with no action — for any id, static or not (the
classification only picks the duration) — and it then produces exactly
one `rotation_euler` channel with exactly two keyframes, value 0 at
`target.startFrame` and the fixed value 0.05 at `target.endFrame`,
deterministically in the target range. -/
theorem c4_idle_synthesis (t : TargetRange) (rig : Option Rig) (chs : List IdleChannel)
    (h : animOutcome t rig = AnimResult.idleSynth chs) :
    rig = some ⟨none⟩ ∧ chs = [synthIdle t.startFrame t.endFrame] ∧ chs.length = 1 ∧
    (synthIdle t.startFrame t.endFrame).dataPath = "rotation_euler" ∧
    (synthIdle t.startFrame t.endFrame).arrayIndex = 2 ∧
    (synthIdle t.startFrame t.endFrame).keys =
      [((t.startFrame : ℚ), 0), ((t.endFrame : ℚ), 5 / 100)] ∧
    animOutcome t (some ⟨none⟩) =
      AnimResult.idleSynth [synthIdle t.startFrame t.endFrame] := by
  match rig with
  | none => simp [animOutcome, find_action] at h
  | some ⟨some act⟩ => simp [animOutcome, find_action] at h
  | some ⟨none⟩ =>
    simp [animOutcome, find_action] at h
    subst h
    exact ⟨rfl, rfl, rfl, rfl, rfl, rfl, by simp [animOutcome, find_action]⟩

/-- Witness for C4's amended theorem at target range `(1, 300)` with an
armature carrying no action. -/
theorem c4_idle_synthesis_witness :
    (some (⟨none⟩ : Rig)) = some (⟨none⟩ : Rig) ∧
    ([synthIdle 1 300] : List IdleChannel) = [synthIdle 1 300] ∧
    ([synthIdle 1 300] : List IdleChannel).length = 1 ∧
    (synthIdle 1 300).dataPath = "rotation_euler" ∧
    (synthIdle 1 300).arrayIndex = 2 ∧
    (synthIdle 1 300).keys = [(((1 : ℤ) : ℚ), 0), (((300 : ℤ) : ℚ), 5 / 100)] ∧
    animOutcome ⟨1, 300⟩ (some ⟨none⟩) = AnimResult.idleSynth [synthIdle 1 300] :=
  c4_idle_synthesis ⟨1, 300⟩ (some ⟨none⟩) [synthIdle 1 300]
    (by simp [animOutcome, find_action])

/-- C5 (code evaluation): the working form of the aspect loop — the one
in render_catalog_scenes.py — produces, for every exercise id and output
root, exactly three jobs in the fixed order square (1080x1080), portrait
(1080x1920), landscape (1920x1080) with the deterministic paths
`outputRoot/id/id_v1_<W>x<H>.mp4`, identically on re-run; the batch
script's own aspect loop, however, raises at its first statement
(line 207) and can never emit a single job. -/
theorem c5_expand_jobs (exId root : String) :
    (expandScene exId root).length = 3 ∧
    (expandScene exId root).map (fun j => (j.width, j.height)) =
      [(1080, 1080), (1080, 1920), (1920, 1080)] ∧
    (expandScene exId root).map RenderJob.aspect = ["square", "portrait", "landscape"] ∧
    (expandScene exId root).map RenderJob.outputPath =
      [root ++ "/" ++ exId ++ "/" ++ exId ++ "_v1_1080x1080.mp4",
       root ++ "/" ++ exId ++ "/" ++ exId ++ "_v1_1080x1920.mp4",
       root ++ "/" ++ exId ++ "/" ++ exId ++ "_v1_1920x1080.mp4"] ∧
    expandScene exId root = expandScene exId root ∧
    batchAspectLoop exId root = Except.error renderLoopError := by
  refine ⟨rfl, ?_, ?_, ?_, rfl, rfl⟩ <;>
    simp [expandScene, aspectRes, String.append_assoc]

/-- C6 (confirmed): for every degenerate source range
(`lastFrame ≤ firstFrame`) and every target range, the retime denominator
is clamped to exactly 1 — so it is never zero and no division-by-zero
occurs — and the scale then equals the whole target length; in
particular `firstFrame = lastFrame = 5` with target `(1, 30)` yields
scale exactly 30. -/
theorem c6_degenerate_clamp (s : SourceRange) (t : TargetRange)
    (h : s.lastFrame ≤ s.firstFrame) :
    origLength s = 1 ∧ origLength s ≠ 0 ∧
    retimeScale s t = ((t.endFrame : ℚ) - (t.startFrame : ℚ)) + 1 ∧
    retimeScale ⟨5, 5⟩ ⟨1, 30⟩ = 30 := by
  have h1 : origLength s = 1 := by simp [origLength, not_lt.mpr h]
  refine ⟨h1, by rw [h1]; norm_num, by rw [retimeScale, h1, div_one], ?_⟩
  norm_num [retimeScale, origLength]

/-- Witness for C6 at the degenerate source range `(5, 5)` with target
`(1, 30)`. -/
theorem c6_degenerate_clamp_witness :
    origLength ⟨5, 5⟩ = 1 ∧ origLength ⟨5, 5⟩ ≠ 0 ∧
    retimeScale ⟨5, 5⟩ ⟨1, 30⟩ = ((30 : ℤ) : ℚ) - ((1 : ℤ) : ℚ) + 1 ∧
    retimeScale ⟨5, 5⟩ ⟨1, 30⟩ = 30 :=
  c6_degenerate_clamp ⟨5, 5⟩ ⟨1, 30⟩ (le_refl _)

/-- C7 (confirmed): for every curve whose keyframe times are
monotonically non-decreasing in source order, every source range and
every target range with `endFrame ≥ startFrame`, the retimed curve's
keyframe times are again monotonically non-decreasing: the affine remap
has non-negative scale and so preserves the ordering invariant. -/
theorem c7_retime_monotone (c : List Keyframe) (s : SourceRange) (t : TargetRange)
    (hc : timesMonotone c) (ht : t.startFrame ≤ t.endFrame) :
    timesMonotone (retime s t c) := by
  have hposOrig : 0 < origLength s := by
    unfold origLength; split
    · linarith
    · norm_num
  have hcast : (t.startFrame : ℚ) ≤ (t.endFrame : ℚ) := by exact_mod_cast ht
  have hscale : 0 ≤ retimeScale s t :=
    div_nonneg (by linarith) hposOrig.le
  unfold timesMonotone retime
  rw [List.chain'_map]
  refine List.Chain'.imp ?_ hc
  intro a b hab
  show retimeTime s t a.time ≤ retimeTime s t b.time
  unfold retimeTime
  have hmul := mul_le_mul_of_nonneg_right (sub_le_sub_right hab s.firstFrame) hscale
  linarith

/-- Witness for C7 at a two-keyframe monotone curve retimed onto
`(1, 66)`. -/
theorem c7_retime_monotone_witness :
    timesMonotone (retime ⟨0, 2⟩ ⟨1, 66⟩ [⟨1, 0, 1, 1⟩, ⟨2, 0, 2, 2⟩]) :=
  c7_retime_monotone [⟨1, 0, 1, 1⟩, ⟨2, 0, 2, 2⟩] ⟨0, 2⟩ ⟨1, 66⟩
    (by simp [timesMonotone]) (by norm_num)

/-- C8 (confirmed): retime is not idempotent — there is a curve, a source
range and a target range on which applying retime twice with the same
arguments differs from applying it once: with source `(0, 1)` and target
`(1, 2)` the map is `x * 2 + 1`, sending a keyframe at 1 first to 3 and
then to 7. -/
theorem c8_not_idempotent :
    ∃ (c : List Keyframe) (s : SourceRange) (t : TargetRange),
      retime s t (retime s t c) ≠ retime s t c := by
  refine ⟨[⟨1, 0, 1, 1⟩], ⟨0, 1⟩, ⟨1, 2⟩, ?_⟩
  simp [retime, retimeKeyframe, retimeTime, retimeScale, origLength]

/-- C9 (code evaluation): for every id whose asset resolves but yields
no armature on import (hence no action), the per-id body creates no
animation at all — the idle fallback is synthesized only behind the
armature guard — and records no skip, exactly as the claim says; but
contrary to the claim's final conjunct no aspect render is ever
executed: the iteration reaches the render loop and raises at its first
statement, line 207. -/
theorem c9_no_rig_no_anim (args : BatchArgs) (exId : String) (env : IdEnv)
    (hres : (resolve env).isSome) (himp : env.importOutcome = Except.ok none) :
    processId args exId env =
      IdOutcome.renderLoopRaised 1 (idFrameEnd args exId) AnimResult.noAnim
        renderLoopError ∧
    processId args exId env ≠ IdOutcome.skippedMissing ∧
    (∀ t chs, animOutcome t none ≠ AnimResult.idleSynth chs) ∧
    batchAspectLoop exId args.out = Except.error renderLoopError := by
  obtain ⟨ext, hext⟩ := Option.isSome_iff_exists.mp hres
  have hia := importAsset_of_resolved env (args.src ++ "/" ++ exId ++ ext) ext hext
  have h1 : processId args exId env =
      IdOutcome.renderLoopRaised 1 (idFrameEnd args exId) AnimResult.noAnim
        renderLoopError := by
    simp [processId, hext, hia, himp, animOutcome, find_action]
  refine ⟨h1, by rw [h1]; simp, ?_, rfl⟩
  intro t chs
  simp [animOutcome, find_action]

/-- Witness for C9's evaluation theorem at an id whose `.fbx` asset
exists and whose import returns no armature. -/
theorem c9_no_rig_no_anim_witness :
    processId ⟨"s", "o", 30, 2, 10⟩ "squats" ⟨fun e => e == ".fbx", Except.ok none⟩ =
      IdOutcome.renderLoopRaised 1 (idFrameEnd ⟨"s", "o", 30, 2, 10⟩ "squats")
        AnimResult.noAnim renderLoopError ∧
    processId ⟨"s", "o", 30, 2, 10⟩ "squats" ⟨fun e => e == ".fbx", Except.ok none⟩ ≠
      IdOutcome.skippedMissing ∧
    (∀ t chs, animOutcome t none ≠ AnimResult.idleSynth chs) ∧
    batchAspectLoop "squats" "o" = Except.error renderLoopError :=
  c9_no_rig_no_anim ⟨"s", "o", 30, 2, 10⟩ "squats" ⟨fun e => e == ".fbx", Except.ok none⟩
    (by simp [resolve, supportedExts]) rfl

/-- C10 (confirmed): in the add-on operator the fps used for the frame
range falls back to 30 exactly when the scene's configured fps is 0 —
`frame_end` is then `max(2, int(seconds * 30))` — and for every non-zero
scene fps the scene's own value is used. -/
theorem c10_fps_fallback (isStatic : Bool) (sec secStatic : ℚ) (f : ℤ) :
    addonUsedFps 0 = 30 ∧
    addonFrameEnd 0 isStatic sec secStatic =
      max 2 (pyInt ((if isStatic then secStatic else sec) * 30)) ∧
    (f ≠ 0 → addonUsedFps f = f ∧
      addonFrameEnd f isStatic sec secStatic =
        max 2 (pyInt ((if isStatic then secStatic else sec) * (f : ℚ)))) := by
  refine ⟨rfl, ?_, fun hf => ⟨by simp [addonUsedFps, hf], ?_⟩⟩
  · norm_num [addonFrameEnd, addonUsedFps]
  · simp [addonFrameEnd, addonUsedFps, hf]

/-- Witness for C10 at the non-zero scene fps 24. -/
theorem c10_fps_fallback_witness :
    addonUsedFps 24 = 24 ∧
    addonFrameEnd 24 false (11 / 5) 10 =
      max 2 (pyInt ((if false then (10 : ℚ) else 11 / 5) * ((24 : ℤ) : ℚ))) :=
  (c10_fps_fallback false (11 / 5) 10 24).2.2 (by norm_num)

end RepCue
